import Mathlib

/-!
Shallow embedding of the invenio-vocabularies datastream readers
(`invenio_vocabularies/datastreams/readers.py`) and of the ROR funder
transformer (`invenio_vocabularies/contrib/common/ror/datastreams.py`).

Python dictionaries are embedded as Lean structures whose fields are
`Option`-valued when the corresponding key may be absent; Python exceptions
become an explicit error type threaded through `Except`.  External library
calls (`idutils.normalize_ror`, `requests.get`, `str.format`, the
`oaipmh_scythe` client) are taken as function parameters of the embedding,
since their code is not part of this repository.
-/

/-- A Python value as far as truthiness checks in this code base need it:
`None`, a string, a byte buffer, or an opaque open handle. -/
inductive PyVal where
  | none
  | str (s : String)
  | bytes (b : List Nat)
  | handle (n : Nat)
deriving DecidableEq, Repr

/-- Python truthiness for `PyVal`: `None`, the empty string and the empty
byte buffer are falsy; an open handle is truthy. -/
def pyTruthy : PyVal → Bool
  | .none => false
  | .str s => s ≠ ""
  | .bytes b => !b.isEmpty
  | .handle _ => true

/-- Python truthiness of an optional string: falsy iff it is `None` or `""`. -/
def pyTruthyS : Option String → Bool
  | Option.none => false
  | some s => s ≠ ""

/-- The exceptions this code base can raise: the two library error kinds
(`TransformerError`, `ReaderError`) and the Python built-in exceptions that
the code can hit (`KeyError`, `IndexError`, `TypeError`,
`NotImplementedError`, and `NameError` — the ROR module calls the gettext
alias underscore without ever importing or defining it, so evaluating the
message of its two intended `TransformerError` raises fails first). -/
inductive PyErr where
  | transformerError (msg : String)
  | readerError (msg : String)
  | keyError (key : String)
  | indexError
  | typeError (msg : String)
  | notImplementedError (msg : String)
  | nameError (msg : String)
deriving DecidableEq, Repr

/-- A JSON value, the unit of data yielded by `JsonReader`. -/
inductive Json where
  | null
  | bool (b : Bool)
  | num (n : Int)
  | str (s : String)
  | arr (elems : List Json)
  | obj (fields : List (String × Json))

/-- Whether a JSON value is a list (Python `isinstance(entries, list)`). -/
def Json.isArr : Json → Bool
  | .arr _ => true
  | _ => false

/-- The file pointer handed to a reader body: either the item supplied by an
upstream reader, or the handle obtained by opening the configured origin. -/
inductive FP where
  | fromItem (v : PyVal)
  | fromOrigin (origin : String) (mode : String)
deriving DecidableEq, Repr

/-- `BaseReader.read`: `if item:` iterate over the item, `else` open the
configured origin with the configured mode and iterate that.  The embedding
returns which file pointer is passed on to `_iter`. -/
def BaseReader.read (origin : String) (mode : String) (item : PyVal) : FP :=
  if pyTruthy item then .fromItem item else .fromOrigin origin mode

/-- `JsonReader._iter`: `json.load` the whole resource (its outcome is the
`decoded` argument); a list yields each element, any other value is yielded
alone; a decode failure raises `ReaderError` naming the resource and the
decoder error. -/
def JsonReader.iterJson (name : String) (decoded : Except String Json) :
    Except PyErr (List Json) :=
  match decoded with
  | .error err =>
      .error (.readerError ("Cannot decode JSON file " ++ name ++ ": " ++ err))
  | .ok (.arr entries) => .ok entries
  | .ok entries => .ok [entries]

/-- A member of a ZIP archive as `ZipReader._iter` sees it: its name and the
result of `member.is_dir()`. -/
structure ZipInfo where
  filename : String
  is_dir : Bool
deriving DecidableEq, Repr

/-- A member of a tar archive as `TarReader._iter` sees it: its name and the
result of `member.isfile()` (true only for regular files). -/
structure TarInfo where
  name : String
  isfile : Bool
deriving DecidableEq, Repr

/-- `not self._regex or self._regex.search(s)`: with no configured pattern
every name matches; a compiled regex is embedded as its decision function
(`search` returning a truthy match object iff the function returns true). -/
def regexMatch (regex : Option (String → Bool)) (s : String) : Bool :=
  match regex with
  | Option.none => true
  | some r => r s

/-- `ZipReader._iter`: walk `fp.infolist()` in order, and for each member
that is not a directory and matches the filter, yield `fp.open(member)`
(embedded as the member itself, standing for the opened handle). -/
def ZipReader.iterMembers (regex : Option (String → Bool)) :
    List ZipInfo → List ZipInfo
  | [] => []
  | member :: rest =>
    if !member.is_dir && regexMatch regex member.filename then
      member :: ZipReader.iterMembers regex rest
    else
      ZipReader.iterMembers regex rest

/-- `TarReader._iter`: walk the archive members in order, and for each member
with `member.isfile()` true that matches the filter, yield
`fp.extractfile(member)` (embedded as the member itself). -/
def TarReader.iterMembers (regex : Option (String → Bool)) :
    List TarInfo → List TarInfo
  | [] => []
  | member :: rest =>
    if member.isfile && regexMatch regex member.name then
      member :: TarReader.iterMembers regex rest
    else
      TarReader.iterMembers regex rest

/-- An HTTP response as `SimpleHTTPReader._iter` consumes it. -/
structure HTTPResponse where
  status_code : Nat
  content : String
deriving DecidableEq, Repr

/-- `SimpleHTTPReader._iter`: for each configured identifier, format the URL
(`base_url.format(id=id_)`, embedded as the `format` parameter), issue
`requests.get` (the `get` parameter), and yield `resp.content`.  The source's
`if resp.status_code != 200:` block contains only `pass`, so the yield is
unconditional. -/
def SimpleHTTPReader.iterIds (get : String → HTTPResponse)
    (format : String → String) : List String → List String
  | [] => []
  | id_ :: rest =>
    let url := format id_
    let resp := get url
    resp.content :: SimpleHTTPReader.iterIds get format rest

/-- Outcome of a `list_records` / `list_identifiers` call against the OAI-PMH
endpoint: either the `NoRecordsMatch` error or the harvested items (records
or identifiers, both kept as opaque strings). -/
inductive OAIResult where
  | noRecordsMatch
  | results (xs : List String)
deriving DecidableEq, Repr

/-- The scythe client session, embedded by the responses the endpoint gives
to the three calls `OAIPMHReader._iter` can make with its configured query. -/
structure Scythe where
  list_records : OAIResult
  list_identifiers : OAIResult
  get_record : String → String

/-- The envelope yielded per harvested item: `{"record": record}`. -/
structure OAIEnvelope where
  record : String
deriving DecidableEq, Repr

/-- `OAIPMHReader._iter`: under verb `"ListRecords"` harvest records in bulk,
otherwise list identifiers and fetch each record; in both branches the
client's `NoRecordsMatch` is turned into a `ReaderError`. -/
def OAIPMHReader.iterScythe (verb : String) (scythe : Scythe) :
    Except PyErr (List OAIEnvelope) :=
  if verb = "ListRecords" then
    match scythe.list_records with
    | .noRecordsMatch => .error (.readerError "No records found in OAI-PMH request.")
    | .results records => .ok (records.map (fun r => ⟨r⟩))
  else
    match scythe.list_identifiers with
    | .noRecordsMatch => .error (.readerError "No records found in OAI-PMH request.")
    | .results headers => .ok (headers.map (fun h => ⟨scythe.get_record h⟩))

/-- `OAIPMHReader.read`: `if item:` raise `NotImplementedError`, else open a
scythe session on the configured base URL and delegate to `_iter`. -/
def OAIPMHReader.readScythe (verb : String) (item : PyVal) (scythe : Scythe) :
    Except PyErr (List OAIEnvelope) :=
  if pyTruthy item then
    .error (.notImplementedError
      "OAIPMHReader does not support being chained after another reader")
  else
    OAIPMHReader.iterScythe verb scythe

/-- One entry of a raw ROR record's `names` list.  `lang` distinguishes an
absent key (`Option.none`, where `name.get("lang", "en")` yields the default)
from a key present with `null` (`some Option.none`); `types` and `value` are
accessed with `name["types"]` / `name["value"]`, so an absent key is a
`KeyError`. -/
structure RORName where
  lang : Option (Option String)
  types : Option (List String)
  value : Option String
deriving DecidableEq, Repr

/-- The `geonames_details` mapping of a ROR location; every key is read with
`.get`, so absence yields `None`. -/
structure GeonamesDetails where
  country_code : Option String
  country_name : Option String
  name : Option String
deriving DecidableEq, Repr

/-- One entry of a raw ROR record's `locations` list. -/
structure RORLocation where
  geonames_details : Option GeonamesDetails
deriving DecidableEq, Repr

/-- One entry of a raw ROR record's `external_ids` list: `type` is read with
`identifier["type"]` (KeyError when absent), `preferred` and `all` with
`.get` (absent or null collapse to `Option.none`). -/
structure ExternalId where
  type : Option String
  preferred : Option String
  all : Option (List String)
deriving DecidableEq, Repr

/-- A raw ROR record, with `Option.none` marking an absent top-level key
(every top-level key is read with `record.get`). -/
structure RORRecord where
  id : Option String
  names : Option (List RORName)
  locations : Option (List RORLocation)
  types : Option (List String)
  status : Option String
  external_ids : Option (List ExternalId)
deriving DecidableEq, Repr

/-- One `{identifier, scheme}` pair of the normalized record. -/
structure FunderIdentifier where
  identifier : String
  scheme : String
deriving DecidableEq, Repr

/-- The normalized funder record built by `RORTransformer.apply`.  Optional
fields model dictionary keys that the code only sets conditionally; `aliases`
is a `Finset` because the source collects aliases in a Python `set` and emits
`list(aliases)` in unspecified order. -/
structure RORFunder where
  id : String
  title : List (String × String)
  name : String
  acronym : Option String
  aliases : Option (Finset String)
  country : Option String
  country_name : Option String
  location_name : Option String
  types : Option (List String)
  status : Option String
  identifiers : List FunderIdentifier
deriving DecidableEq

/-- The accumulator of the loop over `record["names"]`: the `name`, `title`,
alias-set and `acronym` slots of the `ror` dictionary under construction. -/
structure NameState where
  name : Option String
  title : List (String × String)
  aliases : Finset String
  acronym : Option String
deriving DecidableEq

/-- Python dictionary assignment `d[k] = v` on an insertion-ordered
association list: replace in place when the key exists, else append. -/
def dictSet : List (String × String) → String → String → List (String × String)
  | [], k, v => [(k, v)]
  | (k1, v1) :: rest, k, v =>
    if k1 = k then (k, v) :: rest else (k1, v1) :: dictSet rest k v

/-- The language of a name entry: `name.get("lang", "en")` followed by
`if lang == None: lang = "en"`. -/
def RORName.langOr (n : RORName) : String :=
  match n.lang with
  | some (some s) => s
  | _ => "en"

/-- `name["value"]`: KeyError when the key is absent. -/
def RORName.getVal (n : RORName) : Except PyErr String :=
  match n.value with
  | Option.none => .error (.keyError "value")
  | some v => .ok v

/-- One iteration of the loop over `record["names"]`: the four independent
membership tests on `name["types"]`, in source order. -/
def RORTransformer.processName (st0 : NameState) (n : RORName) :
    Except PyErr NameState := do
  let lang := n.langOr
  let types ← match n.types with
    | Option.none => Except.error (PyErr.keyError "types")
    | some ts => Except.ok ts
  let st1 ← if "ror_display" ∈ types then do
      let v ← n.getVal
      pure { st0 with name := some v }
    else pure st0
  let st2 ← if "label" ∈ types then do
      let v ← n.getVal
      pure { st1 with title := dictSet st1.title lang v }
    else pure st1
  let st3 ← if "alias" ∈ types then do
      let v ← n.getVal
      pure { st2 with aliases := insert v st2.aliases }
    else pure st2
  let st4 ← if "acronym" ∈ types then do
      let v ← n.getVal
      if !(pyTruthyS st3.acronym) then
        pure { st3 with acronym := some v }
      else
        pure { st3 with aliases := insert v st3.aliases }
    else pure st3
  return st4

/-- The whole loop `for name in record.get("names")`: iterating over an
absent key (`None`) is a `TypeError`. -/
def RORTransformer.processNames : Option (List RORName) → Except PyErr NameState
  | Option.none => .error (.typeError "NoneType object is not iterable")
  | some ns =>
      ns.foldlM RORTransformer.processName ⟨Option.none, [], ∅, Option.none⟩

/-- `ror["id"] = normalize_ror(record.get("id"))` followed by
`if not ror["id"]:` and the raise of the intended id `TransformerError`.
The raise statement wraps its message in the gettext alias underscore,
which the module never imports or defines, so evaluating the argument
raises `NameError` before any `TransformerError` is constructed. -/
def checkId (i : Option String) : Except PyErr String :=
  match i with
  | Option.none => .error (.nameError "name _ is not defined")
  | some s =>
      if s = "" then .error (.nameError "name _ is not defined")
      else .ok s

/-- `if not ror["name"]:` and the raise of the intended name
`TransformerError`: reading `ror["name"]` is a `KeyError` when the loop
never assigned it; a falsy assigned value reaches the raise statement, whose
message goes through the undefined gettext alias underscore, so that branch
raises `NameError` rather than the `TransformerError` it names. -/
def checkName (nm : Option String) : Except PyErr String :=
  match nm with
  | Option.none => .error (.keyError "name")
  | some s =>
      if s = "" then
        .error (.nameError "name _ is not defined")
      else .ok s

/-- `record.get("locations", [{}])[0].get("geonames_details", {})`: an absent
key defaults to `[{}]` whose first element carries no details; a present but
empty list makes the `[0]` subscript an `IndexError`. -/
def firstLocation : Option (List RORLocation) → Except PyErr GeonamesDetails
  | Option.none => .ok ⟨Option.none, Option.none, Option.none⟩
  | some [] => .error .indexError
  | some (l :: _) =>
      .ok (match l.geonames_details with
        | Option.none => ⟨Option.none, Option.none, Option.none⟩
        | some g => g)

/-- The `valid_schemes` set: the keys of `vocab_schemes` when that dictionary
is truthy, plus `"fundref"` when the fundref DOI prefix
(`funder_fundref_doi_prefix` in the source) is truthy. -/
def validSchemes (vocab_schemes : Option (List String))
    (fundrefDoi : Option String) : Finset String :=
  let base : Finset String :=
    match vocab_schemes with
    | some ks => if ks.isEmpty then ∅ else ks.toFinset
    | Option.none => ∅
  if pyTruthyS fundrefDoi then insert "fundref" base else base

/-- `identifier.get("all")[0]`: subscripting `None` is a `TypeError`,
subscripting an empty list an `IndexError`. -/
def ExternalId.allFirst (identifier : ExternalId) : Except PyErr String :=
  match identifier.all with
  | Option.none => .error (.typeError "NoneType object is not subscriptable")
  | some [] => .error .indexError
  | some (v :: _) => .ok v

/-- `identifier.get("preferred") or identifier.get("all")[0]`: the preferred
value when truthy, else the first of the value list. -/
def ExternalId.pickValue (identifier : ExternalId) : Except PyErr String :=
  match identifier.preferred with
  | some p => if p ≠ "" then .ok p else identifier.allFirst
  | Option.none => identifier.allFirst

/-- One iteration of the loop over `record.get("external_ids")`: include the
identifier only when its scheme is allow-listed, rewriting a `"fundref"`
identifier to scheme `"doi"` with the DOI prefix prepended only when that
prefix is truthy. -/
def RORTransformer.processExternalId (fundrefDoi : Option String)
    (valid : Finset String) (acc : List FunderIdentifier)
    (identifier : ExternalId) : Except PyErr (List FunderIdentifier) := do
  let scheme ← match identifier.type with
    | Option.none => Except.error (PyErr.keyError "type")
    | some s => Except.ok s
  if scheme ∈ valid then
    let value ← identifier.pickValue
    let pr :=
      if scheme = "fundref" then
        match fundrefDoi with
        | some p => if p ≠ "" then (p ++ "/" ++ value, "doi") else (value, scheme)
        | Option.none => (value, scheme)
      else (value, scheme)
    return acc ++ [⟨pr.1, pr.2⟩]
  else
    return acc

/-- `RORTransformer.apply`, body only (the final `stream_entry.entry = ror`
assignment is `RORTransformer.applyEntry`).  `normalize_ror` is the imported
`idutils.normalize_ror`, taken as a parameter; `vocab_schemes` is embedded by
its key list and `fundrefDoi` is the source's `funder_fundref_doi_prefix`
option. -/
def RORTransformer.apply (normalize_ror : Option String → Option String)
    (vocab_schemes : Option (List String)) (fundrefDoi : Option String)
    (record : RORRecord) : Except PyErr RORFunder := do
  let id ← checkId (normalize_ror record.id)
  let st ← RORTransformer.processNames record.names
  let acronymField := if pyTruthyS st.acronym then st.acronym else Option.none
  let aliasesField := if st.aliases = ∅ then Option.none else some st.aliases
  let name ← checkName st.name
  let location ← firstLocation record.locations
  let valid := validSchemes vocab_schemes fundrefDoi
  let base : List FunderIdentifier := [⟨id, "ror"⟩]
  let identifiers ← match record.external_ids with
    | Option.none => Except.error (PyErr.typeError "NoneType object is not iterable")
    | some ext => ext.foldlM (RORTransformer.processExternalId fundrefDoi valid) base
  return {
    id := id, title := st.title, name := name,
    acronym := acronymField, aliases := aliasesField,
    country := location.country_code, country_name := location.country_name,
    location_name := location.name,
    types := record.types, status := record.status,
    identifiers := identifiers }

/-- The payload of a stream entry: the raw record before transformation or
the funder record after it. -/
inductive EntryVal where
  | raw (r : RORRecord)
  | funder (f : RORFunder)
deriving DecidableEq

/-- A stream entry, carrying its payload. -/
structure StreamEntry where
  entry : EntryVal
deriving DecidableEq

/-- `RORTransformer.apply` as seen from the stream entry: the entry is
replaced by the normalized record only by the final assignment, so a raised
error (returned in the second component) leaves the entry untouched. -/
def RORTransformer.applyEntry (normalize_ror : Option String → Option String)
    (vocab_schemes : Option (List String)) (fundrefDoi : Option String)
    (record : RORRecord) : StreamEntry × Option PyErr :=
  match RORTransformer.apply normalize_ror vocab_schemes fundrefDoi record with
  | .ok f => (⟨.funder f⟩, Option.none)
  | .error e => (⟨.raw record⟩, some e)

/-- Decidable equality for `Except`, built without tactic rewrites so that
`decide` can evaluate concrete runs of the embedded functions. -/
instance {ε α : Type} [DecidableEq ε] [DecidableEq α] : DecidableEq (Except ε α) := fun a b =>
  match a, b with
  | .ok x, .ok y => decidable_of_iff (x = y) (by simp)
  | .error x, .error y => decidable_of_iff (x = y) (by simp)
  | .ok _, .error _ => .isFalse (fun h => Except.noConfusion h)
  | .error _, .ok _ => .isFalse (fun h => Except.noConfusion h)

/-- Stand-in for `idutils.normalize_ror` in concrete runs: the identity on an
already-canonical ROR identifier. -/
def idNorm : Option String → Option String := fun x => x

/-- The keys of the caller-supplied scheme table (empty when the table is
`None`). -/
def vocabKeys : Option (List String) → List String
  | Option.none => []
  | some ks => ks

/-- A name entry of type `ror_display` with value `"Example"`. -/
def displayName : RORName := ⟨Option.none, some ["ror_display"], some "Example"⟩

/-- Record family for the fundref claim: a canonicalizable id, one
`ror_display` name, and one `fundref` external identifier whose preferred
value is `v`. -/
def c1rec (v : String) : RORRecord :=
  { id := some "05dxps055", names := some [displayName],
    locations := Option.none, types := Option.none, status := Option.none,
    external_ids := some [⟨some "fundref", some v, Option.none⟩] }

/-- A record with a canonicalizable id whose only name entry is a label, so
no `ror_display` name exists. -/
def c2rec : RORRecord :=
  { id := some "05dxps055",
    names := some [⟨some (some "en"), some ["label"], some "Uni"⟩],
    locations := Option.none, types := Option.none, status := Option.none,
    external_ids := some [] }

/-- The record of the name-classification claim: a display name, two
acronyms and one alias. -/
def c4rec : RORRecord :=
  { id := some "05dxps055",
    names := some [⟨Option.none, some ["ror_display"], some "Example"⟩,
                   ⟨Option.none, some ["acronym"], some "EX1"⟩,
                   ⟨Option.none, some ["acronym"], some "EX2"⟩,
                   ⟨Option.none, some ["alias"], some "Example Org"⟩],
    locations := Option.none, types := Option.none, status := Option.none,
    external_ids := some [] }

/-- A well-formed record whose `locations` key is present but empty. -/
def c10recEmpty : RORRecord :=
  { id := some "05dxps055", names := some [displayName],
    locations := some [], types := Option.none, status := Option.none,
    external_ids := some [] }

/-- The same record with the `locations` key entirely absent. -/
def c10recAbsent : RORRecord := { c10recEmpty with locations := Option.none }

/-- The name-loop state after processing the single `ror_display` name. -/
def displayState : NameState := ⟨some "Example", [], ∅, Option.none⟩

/-- A 404 response carrying an error page as its body. -/
def resp404 : HTTPResponse := ⟨404, "error page"⟩

/-- An endpoint answering 404 to every request. -/
def get404 : String → HTTPResponse := fun _ => resp404

/-- The identifier-to-URL template instantiation of the counterexample. -/
def c3format : String → String := fun i => "https://api.example.org/records/" ++ i

/-- An OAI-PMH session whose endpoint reports zero matching records to both
bulk listing and identifier listing. -/
def scNoMatch : Scythe := ⟨.noRecordsMatch, .noRecordsMatch, fun _ => ""⟩

/-- Binding an error short-circuits in the `Except` monad. -/
@[simp] theorem except_error_bind {ε α β : Type} (e : ε) (f : α → Except ε β) :
    ((Except.error e : Except ε α) >>= f) = Except.error e := rfl

/-- Binding a success applies the continuation in the `Except` monad. -/
@[simp] theorem except_ok_bind {ε α β : Type} (a : α) (f : α → Except ε β) :
    ((Except.ok a : Except ε α) >>= f) = f a := rfl

/-- With no DOI prefix configured, the allow-list is exactly the key set of
the caller-supplied scheme table. -/
theorem mem_validSchemes_noDoi (s : String) (vs : Option (List String)) :
    s ∈ validSchemes vs Option.none ↔ s ∈ vocabKeys vs := by
  cases vs with
  | none => simp [validSchemes, vocabKeys, pyTruthyS]
  | some ks => cases ks <;> simp [validSchemes, vocabKeys, pyTruthyS]

/-- C1, counterexample: with no DOI prefix configured but `"fundref"` a key
of the caller-supplied allow-list, `RORTransformer.apply` does emit a
fundref-derived identifier — with its raw value under scheme `"fundref"` —
contradicting the claim that no fundref-derived identifier is emitted at
all in that configuration. -/
theorem C1_noprefix_counterexample :
    (RORTransformer.apply idNorm (some ["fundref"]) Option.none (c1rec "100000001")).map
        RORFunder.identifiers
      = .ok [⟨"05dxps055", "ror"⟩, ⟨"100000001", "fundref"⟩] := by decide

/-- C1, amended: with a DOI prefix configured, a fundref external identifier
is emitted as the prefix, a slash and the fundref value under scheme
`"doi"`; with no DOI prefix configured, a fundref external identifier is
emitted — unrewritten, under scheme `"fundref"` — exactly when `"fundref"`
is a key of the caller-supplied allow-list. -/
theorem C1_fundref_allowlist (v p : String) (vocab_schemes : Option (List String))
    (hv : v ≠ "") (hp : p ≠ "") :
    (RORTransformer.apply idNorm vocab_schemes (some p) (c1rec v)).map RORFunder.identifiers
        = .ok [⟨"05dxps055", "ror"⟩, ⟨p ++ "/" ++ v, "doi"⟩] ∧
    (RORTransformer.apply idNorm vocab_schemes Option.none (c1rec v)).map RORFunder.identifiers
        = .ok ([⟨"05dxps055", "ror"⟩]
            ++ (if "fundref" ∈ vocabKeys vocab_schemes then [⟨v, "fundref"⟩] else [])) := by
  have hvp : pyTruthyS (some p) = true := by simp [pyTruthyS, hp]
  constructor
  · simp [RORTransformer.apply, c1rec, firstLocation,
      List.foldlM, RORTransformer.processExternalId, ExternalId.pickValue, hvp,
      validSchemes, hv, hp, Except.map]
    rfl
  · by_cases hm : "fundref" ∈ vocabKeys vocab_schemes
    · simp [RORTransformer.apply, c1rec, firstLocation,
        List.foldlM, RORTransformer.processExternalId, ExternalId.pickValue,
        mem_validSchemes_noDoi, hm, hv, Except.map, pyTruthyS]
      rfl
    · simp [RORTransformer.apply, c1rec, firstLocation,
        List.foldlM, RORTransformer.processExternalId, ExternalId.pickValue,
        mem_validSchemes_noDoi, hm, hv, Except.map, pyTruthyS]
      rfl

/-- Witness: the amended fundref behavior at value `"100000001"`, prefix
`"10.13039"` and allow-list `{"isni"}`. -/
theorem C1_fundref_allowlist_witness :
    ("100000001" ≠ "" ∧ "10.13039" ≠ "") ∧
    ((RORTransformer.apply idNorm (some ["isni"]) (some "10.13039")
          (c1rec "100000001")).map RORFunder.identifiers
        = .ok [⟨"05dxps055", "ror"⟩, ⟨"10.13039" ++ "/" ++ "100000001", "doi"⟩] ∧
      (RORTransformer.apply idNorm (some ["isni"]) Option.none
          (c1rec "100000001")).map RORFunder.identifiers
        = .ok ([⟨"05dxps055", "ror"⟩]
            ++ (if "fundref" ∈ vocabKeys (some ["isni"])
                then [⟨"100000001", "fundref"⟩] else []))) :=
  ⟨⟨by decide, by decide⟩,
    C1_fundref_allowlist "100000001" "10.13039" (some ["isni"]) (by decide) (by decide)⟩

/-- C2: on a record with a canonicalizable id but no `ror_display` name,
`RORTransformer.apply` raises `KeyError` for key `"name"` (the unguarded
`ror["name"]` read), not the `TransformerError` that the claim — and the
code's own error message two lines below — describe. -/
theorem C2_missing_ror_display_keyError :
    RORTransformer.apply idNorm Option.none Option.none c2rec
      = .error (.keyError "name") := by decide

/-- C3, counterexample: an identifier whose response is a 404 still
contributes its body to the yielded sequence, contradicting the claim that
a non-success response contributes nothing. -/
theorem C3_nonsuccess_counterexample :
    SimpleHTTPReader.iterIds get404 c3format ["17"] = ["error page"] := by rfl

/-- C3, amended: `SimpleHTTPReader._iter` yields exactly one raw body per
identifier, in order, regardless of the response's status code — a
non-success response is neither raised nor retried, and its body is yielded
like any other. -/
theorem C3_yields_every_response (get : String → HTTPResponse)
    (format : String → String) (ids : List String) :
    SimpleHTTPReader.iterIds get format ids
      = ids.map (fun i => (get (format i)).content) := by
  induction ids with
  | nil => rfl
  | cons i rest ih => simp [SimpleHTTPReader.iterIds, ih]

/-- C4: on the record with names `ror_display "Example"`, `acronym "EX1"`,
`acronym "EX2"`, `alias "Example Org"`, the transformer produces
`name = "Example"`, `acronym = "EX1"`, and an alias set containing exactly
the two elements `"EX2"` and `"Example Org"` (a finite set, hence without
duplicates). -/
theorem C4_names_classification :
    (RORTransformer.apply idNorm Option.none Option.none c4rec).map
        (fun f => (f.name, f.acronym,
          f.aliases.map (fun s => (decide ("EX2" ∈ s), decide ("Example Org" ∈ s), s.card))))
      = .ok ("Example", some "EX1", some (true, true, 2)) := by decide

/-- C5: `JsonReader` yields each element of a top-level list in source
order, yields a non-list value alone, and turns a decode failure into a
`ReaderError` naming the resource and the decoder error. -/
theorem C5_json_units (name : String) (xs : List Json) (v : Json) (err : String)
    (hv : v.isArr = false) :
    JsonReader.iterJson name (.ok (.arr xs)) = .ok xs ∧
    JsonReader.iterJson name (.ok v) = .ok [v] ∧
    JsonReader.iterJson name (.error err)
      = .error (.readerError ("Cannot decode JSON file " ++ name ++ ": " ++ err)) := by
  refine ⟨rfl, ?_, rfl⟩
  cases v <;> simp_all [JsonReader.iterJson, Json.isArr]

/-- Witness: the JSON reader claim at a two-element list, a non-list value
and a decode error. -/
theorem C5_json_units_witness :
    (Json.obj []).isArr = false ∧
    (JsonReader.iterJson "funders.json" (.ok (.arr [Json.num 1, Json.num 2]))
        = .ok [Json.num 1, Json.num 2] ∧
      JsonReader.iterJson "funders.json" (.ok (Json.obj [])) = .ok [Json.obj []] ∧
      JsonReader.iterJson "funders.json" (.error "Expecting value")
        = .error (.readerError
            ("Cannot decode JSON file " ++ "funders.json" ++ ": " ++ "Expecting value"))) :=
  ⟨rfl, C5_json_units "funders.json" [Json.num 1, Json.num 2] (Json.obj []) "Expecting value" rfl⟩

/-- The ZIP member walk yields exactly the non-directory members matching
the filter, in native order. -/
theorem zipIter_eq_filter (regex : Option (String → Bool)) (ms : List ZipInfo) :
    ZipReader.iterMembers regex ms
      = ms.filter (fun m => !m.is_dir && regexMatch regex m.filename) := by
  induction ms with
  | nil => rfl
  | cons m rest ih =>
      cases h : (!m.is_dir && regexMatch regex m.filename) <;>
        simp [ZipReader.iterMembers, List.filter_cons, h, ih]

/-- The tar member walk yields exactly the regular-file members matching the
filter, in native order. -/
theorem tarIter_eq_filter (regex : Option (String → Bool)) (ms : List TarInfo) :
    TarReader.iterMembers regex ms
      = ms.filter (fun m => m.isfile && regexMatch regex m.name) := by
  induction ms with
  | nil => rfl
  | cons m rest ih =>
      cases h : (m.isfile && regexMatch regex m.name) <;>
        simp [TarReader.iterMembers, List.filter_cons, h, ih]

/-- C6: both container readers yield exactly the matching non-directory
(for tar: regular-file) members in the archive's native order, and with no
filter configured they yield every such member. -/
theorem C6_archive_members (regex : Option (String → Bool))
    (zms : List ZipInfo) (tms : List TarInfo) :
    ZipReader.iterMembers regex zms
        = zms.filter (fun m => !m.is_dir && regexMatch regex m.filename) ∧
    ZipReader.iterMembers Option.none zms = zms.filter (fun m => !m.is_dir) ∧
    TarReader.iterMembers regex tms
        = tms.filter (fun m => m.isfile && regexMatch regex m.name) ∧
    TarReader.iterMembers Option.none tms = tms.filter (fun m => m.isfile) := by
  refine ⟨zipIter_eq_filter regex zms, ?_, tarIter_eq_filter regex tms, ?_⟩
  · rw [zipIter_eq_filter]; simp [regexMatch]
  · rw [tarIter_eq_filter]; simp [regexMatch]

/-- C7: an endpoint reporting zero matching records makes `OAIPMHReader`
raise a `ReaderError` under either verb, and invoking its `read` with a
(truthy) supplied item raises `NotImplementedError` instead of iterating. -/
theorem C7_oaipmh_failures (verb : String) (sc : Scythe) (item : PyVal)
    (hz : sc.list_records = .noRecordsMatch ∧ sc.list_identifiers = .noRecordsMatch)
    (hi : pyTruthy item = true) :
    OAIPMHReader.readScythe verb PyVal.none sc
        = .error (.readerError "No records found in OAI-PMH request.") ∧
    OAIPMHReader.readScythe verb item sc
        = .error (.notImplementedError
            "OAIPMHReader does not support being chained after another reader") := by
  constructor
  · by_cases h : verb = "ListRecords" <;>
      simp [OAIPMHReader.readScythe, OAIPMHReader.iterScythe, pyTruthy, h, hz.1, hz.2]
  · simp [OAIPMHReader.readScythe, hi]

/-- Witness: the OAI-PMH failure claim at a zero-match session and the
supplied item `"x"`. -/
theorem C7_oaipmh_failures_witness :
    (scNoMatch.list_records = .noRecordsMatch ∧
      scNoMatch.list_identifiers = .noRecordsMatch) ∧
    pyTruthy (PyVal.str "x") = true ∧
    (OAIPMHReader.readScythe "ListRecords" PyVal.none scNoMatch
        = .error (.readerError "No records found in OAI-PMH request.") ∧
      OAIPMHReader.readScythe "ListRecords" (PyVal.str "x") scNoMatch
        = .error (.notImplementedError
            "OAIPMHReader does not support being chained after another reader")) :=
  ⟨⟨rfl, rfl⟩, by decide,
    C7_oaipmh_failures "ListRecords" scNoMatch (PyVal.str "x") ⟨rfl, rfl⟩ (by decide)⟩

/-- C8: whenever the canonicalized id is falsy the transformer fails before
any other field is processed — for every record, even one whose remaining
fields would themselves fail — and on any raised error the stream entry is
never replaced.  But the exception raised is not the normalization failure
the claim describes: because the gettext alias underscore is undefined in
the module, evaluating the message of the intended `TransformerError`
raises `NameError` first. -/
theorem C8_id_failure_nameError (nr : Option String → Option String)
    (vocab_schemes : Option (List String)) (fundrefDoi : Option String)
    (record : RORRecord) (h : pyTruthyS (nr record.id) = false) :
    RORTransformer.applyEntry nr vocab_schemes fundrefDoi record
        = (⟨.raw record⟩, some (.nameError "name _ is not defined")) ∧
    ∀ (record2 : RORRecord) (e : PyErr),
      (RORTransformer.applyEntry nr vocab_schemes fundrefDoi record2).2 = some e →
      (RORTransformer.applyEntry nr vocab_schemes fundrefDoi record2).1 = ⟨.raw record2⟩ := by
  constructor
  · have hid : checkId (nr record.id)
        = .error (.nameError "name _ is not defined") := by
      cases hn : nr record.id with
      | none => rfl
      | some s =>
          rw [hn] at h
          simp [pyTruthyS] at h
          simp [checkId, h]
    simp [RORTransformer.applyEntry, RORTransformer.apply, hid]
  · intro record2 e he
    unfold RORTransformer.applyEntry at he ⊢
    cases happ : RORTransformer.apply nr vocab_schemes fundrefDoi record2 <;>
      simp [happ] at he ⊢

/-- Witness: the id-failure behavior at a normalizer returning `None` on a
record whose `names` key is even absent. -/
theorem C8_id_failure_nameError_witness :
    pyTruthyS ((fun _ => Option.none : Option String → Option String)
        (RORRecord.mk Option.none Option.none Option.none Option.none Option.none
          Option.none).id) = false ∧
    (RORTransformer.applyEntry (fun _ => Option.none) Option.none Option.none
        (RORRecord.mk Option.none Option.none Option.none Option.none Option.none
          Option.none)
        = (⟨.raw (RORRecord.mk Option.none Option.none Option.none Option.none
            Option.none Option.none)⟩,
           some (.nameError "name _ is not defined")) ∧
      ∀ (record2 : RORRecord) (e : PyErr),
        (RORTransformer.applyEntry (fun _ => Option.none) Option.none Option.none
            record2).2 = some e →
        (RORTransformer.applyEntry (fun _ => Option.none) Option.none Option.none
            record2).1 = ⟨.raw record2⟩) :=
  ⟨rfl, C8_id_failure_nameError (fun _ => Option.none) Option.none Option.none
    (RORRecord.mk Option.none Option.none Option.none Option.none Option.none
      Option.none) rfl⟩

/-- C9: a falsy supplied item (such as the empty string) is treated exactly
like no item: `BaseReader.read` opens the configured origin. -/
theorem C9_falsy_item_origin (origin mode : String) (item : PyVal)
    (h : pyTruthy item = false) :
    BaseReader.read origin mode item = BaseReader.read origin mode PyVal.none ∧
    BaseReader.read origin mode item = FP.fromOrigin origin mode := by
  have h0 : pyTruthy PyVal.none = false := rfl
  constructor <;> simp [BaseReader.read, h, h0]

/-- Witness: the falsy-item claim at the empty string. -/
theorem C9_falsy_item_origin_witness :
    pyTruthy (PyVal.str "") = false ∧
    (BaseReader.read "data.yaml" "r" (PyVal.str "")
        = BaseReader.read "data.yaml" "r" PyVal.none ∧
      BaseReader.read "data.yaml" "r" (PyVal.str "") = FP.fromOrigin "data.yaml" "r") :=
  ⟨by decide, C9_falsy_item_origin "data.yaml" "r" (PyVal.str "") (by decide)⟩

/-- C10: a record whose `locations` key is present but empty makes the
transformer raise `IndexError` (not a `TransformerError`), provided the
earlier id and name steps succeed; with the key entirely absent, a
successful run carries `None` in all three geographic fields. -/
theorem C10_empty_locations (nr : Option String → Option String)
    (vocab_schemes : Option (List String)) (fundrefDoi : Option String)
    (record recordA : RORRecord) (i nm : String) (st : NameState)
    (h1 : checkId (nr record.id) = .ok i)
    (h2 : RORTransformer.processNames record.names = .ok st)
    (h3 : checkName st.name = .ok nm)
    (hloc : record.locations = some [])
    (hlocA : recordA.locations = Option.none) :
    RORTransformer.apply nr vocab_schemes fundrefDoi record = .error .indexError ∧
    ∀ f : RORFunder, RORTransformer.apply nr vocab_schemes fundrefDoi recordA = .ok f →
      f.country = Option.none ∧ f.country_name = Option.none ∧
        f.location_name = Option.none := by
  constructor
  · simp [RORTransformer.apply, h1, h2, h3, hloc, firstLocation]
  · intro f hf
    unfold RORTransformer.apply at hf
    rw [hlocA] at hf
    simp only [Bind.bind, Except.bind, firstLocation] at hf
    repeat' split at hf
    all_goals simp_all [pure, Except.pure]
    all_goals subst hf; exact ⟨rfl, rfl, rfl⟩

/-- Witness: the locations claim at a concrete record with an empty
locations list and its variant with the key absent. -/
theorem C10_empty_locations_witness :
    (checkId (idNorm c10recEmpty.id) = .ok "05dxps055" ∧
      RORTransformer.processNames c10recEmpty.names = .ok displayState ∧
      checkName displayState.name = .ok "Example" ∧
      c10recEmpty.locations = some [] ∧
      c10recAbsent.locations = Option.none) ∧
    (RORTransformer.apply idNorm Option.none Option.none c10recEmpty = .error .indexError ∧
      ∀ f : RORFunder, RORTransformer.apply idNorm Option.none Option.none c10recAbsent = .ok f →
        f.country = Option.none ∧ f.country_name = Option.none ∧
          f.location_name = Option.none) :=
  ⟨⟨by decide, by decide, by decide, rfl, rfl⟩,
    C10_empty_locations idNorm Option.none Option.none c10recEmpty c10recAbsent
      "05dxps055" "Example" displayState (by decide) (by decide) (by decide) rfl rfl⟩
